import Mathlib

/-!
Shallow embedding of the mp4CrashRecorder core (moov_builder.cpp,
mp4_recorder.cpp, index_file.cpp) and proofs of the spec claims.

Machine integers are modelled as `Nat` (unsigned) and `Int` (signed) with
explicit `% 2^w` at the points where C++ performs a narrowing conversion or
where unsigned wrap-around can occur.  Byte sequences are `List Nat` whose
elements denote `uint8_t` values.
-/

namespace Mp4CR

/-- Narrowing conversion `int64_t -> uint32_t` (C++ modular semantics). -/
def u32ofInt (x : Int) : Nat := (x % (2 ^ 32 : Int)).toNat

/-- Embeds `MoovBuilder::writeUint8`: pushes `value` (one byte). -/
def writeUint8 (v : Nat) : List Nat := [v % 256]

/-- Embeds `MoovBuilder::writeUint16BE`: big-endian 16-bit emission. -/
def writeUint16BE (v : Nat) : List Nat := [(v >>> 8) % 256, v % 256]

/-- Embeds `MoovBuilder::writeUint32BE`: big-endian 32-bit emission. -/
def writeUint32BE (v : Nat) : List Nat :=
  [(v >>> 24) % 256, (v >>> 16) % 256, (v >>> 8) % 256, v % 256]

/-- Embeds `MoovBuilder::writeAtomHeader`: 4-byte size then 4-byte type tag. -/
def writeAtomHeader (tag : List Nat) (size : Nat) : List Nat :=
  writeUint32BE size ++ tag

-- Atom type tags (ASCII byte values of the 4-character codes in the source).
def tagMoov : List Nat := ['m'.toNat, 'o'.toNat, 'o'.toNat, 'v'.toNat]
def tagMvhd : List Nat := ['m'.toNat, 'v'.toNat, 'h'.toNat, 'd'.toNat]
def tagTkhd : List Nat := ['t'.toNat, 'k'.toNat, 'h'.toNat, 'd'.toNat]
def tagTrak : List Nat := ['t'.toNat, 'r'.toNat, 'a'.toNat, 'k'.toNat]
def tagMdia : List Nat := ['m'.toNat, 'd'.toNat, 'i'.toNat, 'a'.toNat]
def tagMdhd : List Nat := ['m'.toNat, 'd'.toNat, 'h'.toNat, 'd'.toNat]
def tagHdlr : List Nat := ['h'.toNat, 'd'.toNat, 'l'.toNat, 'r'.toNat]
def tagMinf : List Nat := ['m'.toNat, 'i'.toNat, 'n'.toNat, 'f'.toNat]
def tagVmhd : List Nat := ['v'.toNat, 'm'.toNat, 'h'.toNat, 'd'.toNat]
def tagSmhd : List Nat := ['s'.toNat, 'm'.toNat, 'h'.toNat, 'd'.toNat]
def tagDinf : List Nat := ['d'.toNat, 'i'.toNat, 'n'.toNat, 'f'.toNat]
def tagDref : List Nat := ['d'.toNat, 'r'.toNat, 'e'.toNat, 'f'.toNat]
def tagUrl : List Nat := ['u'.toNat, 'r'.toNat, 'l'.toNat, ' '.toNat]
def tagStbl : List Nat := ['s'.toNat, 't'.toNat, 'b'.toNat, 'l'.toNat]
def tagStsd : List Nat := ['s'.toNat, 't'.toNat, 's'.toNat, 'd'.toNat]
def tagStts : List Nat := ['s'.toNat, 't'.toNat, 't'.toNat, 's'.toNat]
def tagStss : List Nat := ['s'.toNat, 't'.toNat, 's'.toNat, 's'.toNat]
def tagStsz : List Nat := ['s'.toNat, 't'.toNat, 's'.toNat, 'z'.toNat]
def tagStsc : List Nat := ['s'.toNat, 't'.toNat, 's'.toNat, 'c'.toNat]
def tagStco : List Nat := ['s'.toNat, 't'.toNat, 'c'.toNat, 'o'.toNat]
def tagAvc1 : List Nat := ['a'.toNat, 'v'.toNat, 'c'.toNat, '1'.toNat]
def tagAvcC : List Nat := ['a'.toNat, 'v'.toNat, 'c'.toNat, 'C'.toNat]
def tagMp4a : List Nat := ['m'.toNat, 'p'.toNat, '4'.toNat, 'a'.toNat]
def tagEsds : List Nat := ['e'.toNat, 's'.toNat, 'd'.toNat, 's'.toNat]
def tagMdat : List Nat := ['m'.toNat, 'd'.toNat, 'a'.toNat, 't'.toNat]
def tagVide : List Nat := ['v'.toNat, 'i'.toNat, 'd'.toNat, 'e'.toNat]
def tagSoun : List Nat := ['s'.toNat, 'o'.toNat, 'u'.toNat, 'n'.toNat]

/-- Embeds `FrameInfo` (mp4_recorder.h): one fixed-size journal record. -/
structure FrameInfo where
  offset : Nat        -- uint64_t, byte offset relative to mdat payload start
  size : Nat          -- uint32_t
  pts : Int           -- int64_t
  dts : Int           -- int64_t
  is_keyframe : Nat   -- uint8_t (0 or 1)
  track_id : Nat      -- uint8_t (0 video, 1 audio)
deriving DecidableEq

def dummyFrame : FrameInfo := ⟨0, 0, 0, 0, 0, 0⟩

/-- Embeds `RecorderConfig` (mp4_recorder.h). -/
structure RecorderConfig where
  video_timescale : Nat     -- uint32_t, default 30000
  audio_timescale : Nat     -- uint32_t, default 48000
  audio_sample_rate : Nat   -- uint32_t, default 48000
  audio_channels : Nat      -- uint16_t, default 2
  flush_interval_ms : Nat   -- uint32_t, default 500
  flush_frame_count : Nat   -- uint32_t, default 1000
  video_width : Nat         -- uint32_t, default 640
  video_height : Nat        -- uint32_t, default 480
deriving DecidableEq

/-- The default-constructed `RecorderConfig`. -/
def defaultConfig : RecorderConfig := ⟨30000, 48000, 48000, 2, 500, 1000, 640, 480⟩

/-- The two sample-entry codecs the builder is invoked with
(`"avc1"` for track 1, `"mp4a"` for track 2 in `buildMoov`). -/
inductive Codec where
  | avc1
  | mp4a
deriving DecidableEq

/-- Embeds `MoovBuilder::writeDescriptorLength`: variable-length MPEG-4 descriptor
length encoding (7 bits per byte, continuation bit on all but the last). -/
def writeDescriptorLength (len : Nat) : List Nat :=
  let value := len % 0x10000000        -- `length & 0x0FFFFFFF`
  let b0 := (value >>> 21) % 128
  let b1 := (value >>> 14) % 128
  let b2 := (value >>> 7) % 128
  let b3 := value % 128
  -- `first` skips leading zero groups among bytes[0..2]; 0x80 marks continuation.
  if b0 ≠ 0 then [b0 ||| 128, b1 ||| 128, b2 ||| 128, b3]
  else if b1 ≠ 0 then [b1 ||| 128, b2 ||| 128, b3]
  else if b2 ≠ 0 then [b2 ||| 128, b3]
  else [b3]

/-- Embeds `MoovBuilder::getSampleRateIndex`: 13-entry AAC sampling-frequency table,
defaulting to index 3 (48 kHz). -/
def getSampleRateIndex (sample_rate : Nat) : Nat :=
  if sample_rate = 96000 then 0
  else if sample_rate = 88200 then 1
  else if sample_rate = 64000 then 2
  else if sample_rate = 48000 then 3
  else if sample_rate = 44100 then 4
  else if sample_rate = 32000 then 5
  else if sample_rate = 24000 then 6
  else if sample_rate = 22050 then 7
  else if sample_rate = 16000 then 8
  else if sample_rate = 12000 then 9
  else if sample_rate = 11025 then 10
  else if sample_rate = 8000 then 11
  else if sample_rate = 7350 then 12
  else 3

/-- The 9-entry unity transformation matrix emitted in mvhd and tkhd
(entries 0, 4, 8 are 0x00010000, the rest 0). -/
def matrixBytes : List Nat :=
  writeUint32BE 0x00010000 ++ writeUint32BE 0 ++ writeUint32BE 0 ++
  writeUint32BE 0 ++ writeUint32BE 0x00010000 ++ writeUint32BE 0 ++
  writeUint32BE 0 ++ writeUint32BE 0 ++ writeUint32BE 0x00010000

/-- Embeds `MoovBuilder::buildMvhd`: fixed 108-byte movie header box
(version 0, timescale 1000, the given duration). -/
def buildMvhd (duration : Nat) : List Nat :=
  writeAtomHeader tagMvhd 108 ++
  writeUint32BE 0 ++                 -- version 0 + flags 0
  writeUint32BE 0 ++                 -- creation time
  writeUint32BE 0 ++                 -- modification time
  writeUint32BE 1000 ++              -- timescale
  writeUint32BE duration ++          -- duration
  writeUint32BE 0x00010000 ++        -- playback speed 1.0
  writeUint16BE 0x0100 ++            -- volume 1.0
  writeUint16BE 0 ++                 -- reserved
  List.replicate 8 0 ++              -- reserved (8 zero bytes)
  matrixBytes ++
  List.replicate 24 0 ++             -- pre-defined (6 x u32 zero)
  writeUint32BE 3                    -- next track ID

/-- Default duration for the final stts sample, from `buildTrak`
(moov_builder.cpp lines 359-367): 1024 for `mp4a`, `timescale / 30` for
video when `timescale >= 30`, otherwise the initial value 1. -/
def sttsDefaultDuration (codec : Codec) (timescale : Nat) : Nat :=
  match codec with
  | .mp4a => 1024
  | .avc1 => if timescale ≥ 30 then timescale / 30 else 1

/-- Lines 543-545 of `buildStts`: when the track has at least two samples the
passed-in default duration is overwritten with the previous PTS delta. -/
def sttsEffectiveDefault (frames : List FrameInfo) (default_duration : Nat) : Nat :=
  if frames.length ≥ 2 then
    u32ofInt ((frames.getD (frames.length - 1) dummyFrame).pts -
              (frames.getD (frames.length - 2) dummyFrame).pts)
  else default_duration

/-- Per-sample durations as computed inside the `buildStts` loop:
successive PTS deltas (narrowed to uint32), the effective default for the
final sample. -/
def sttsDurations (frames : List FrameInfo) (default_duration : Nat) : List Nat :=
  let d := sttsEffectiveDefault frames default_duration
  (List.range frames.length).map (fun i =>
    if i + 1 < frames.length then
      u32ofInt ((frames.getD (i + 1) dummyFrame).pts -
                (frames.getD i dummyFrame).pts)
    else d)

/-- The run-length grouping loop of `buildStts`, with accumulator `acc` and
current run `(cc, cd)` (count, duration); mirrors the C++ loop state
`current_count` / `current_duration` started at (0, 0). -/
def sttsGroup : List Nat → List (Nat × Nat) → Nat → Nat → List (Nat × Nat)
  | [], acc, cd, cc => if cc > 0 then acc ++ [(cc, cd)] else acc
  | d :: rest, acc, cd, cc =>
    if d = cd ∨ cc = 0 then sttsGroup rest acc d (cc + 1)
    else sttsGroup rest (acc ++ [(cc, cd)]) d 1

/-- The `(count, duration)` entry list of the stts box. -/
def sttsEntries (frames : List FrameInfo) (default_duration : Nat) : List (Nat × Nat) :=
  sttsGroup (sttsDurations frames default_duration) [] 0 0

/-- Embeds `MoovBuilder::buildStts`: fails (returns false) on an empty frame list,
otherwise emits the run-length-encoded time-to-sample box. -/
def buildStts (frames : List FrameInfo) (default_duration : Nat) : Option (List Nat) :=
  if frames.isEmpty then none
  else
    let entries := sttsEntries frames default_duration
    some (writeAtomHeader tagStts (8 + 8 + entries.length * 8) ++
          writeUint32BE 0 ++
          writeUint32BE entries.length ++
          entries.flatMap (fun e => writeUint32BE e.1 ++ writeUint32BE e.2))

/-- 1-based indices of the records with `is_keyframe` nonzero (`buildStss`). -/
def keyframeIndices (frames : List FrameInfo) : List Nat :=
  ((List.range frames.length).filter
    (fun i => (frames.getD i dummyFrame).is_keyframe ≠ 0)).map (· + 1)

/-- Embeds `MoovBuilder::buildStss`: sync-sample box (never fails in the source). -/
def buildStss (frames : List FrameInfo) : List Nat :=
  let ks := keyframeIndices frames
  writeAtomHeader tagStss (8 + 8 + ks.length * 4) ++
  writeUint32BE 0 ++
  writeUint32BE ks.length ++
  ks.flatMap writeUint32BE

/-- Embeds `MoovBuilder::buildStsz`: fails on empty frames; sample_size = 0
followed by per-sample sizes in record order. -/
def buildStsz (frames : List FrameInfo) : Option (List Nat) :=
  if frames.isEmpty then none
  else
    some (writeAtomHeader tagStsz (8 + 8 + 4 + frames.length * 4) ++
          writeUint32BE 0 ++
          writeUint32BE 0 ++
          writeUint32BE frames.length ++
          frames.flatMap (fun f => writeUint32BE f.size))

/-- The entry-emission loop of `buildStco`: each chunk offset is the u64 sum
`mdat_start + frame.offset`; emission aborts when an offset exceeds
0xFFFFFFFF. -/
def stcoEntries (mdat_start : Nat) : List FrameInfo → Option (List Nat)
  | [] => some []
  | f :: rest =>
    let chunk_offset := (mdat_start + f.offset) % 2 ^ 64
    if chunk_offset > 0xFFFFFFFF then none
    else (stcoEntries mdat_start rest).map (fun tail => writeUint32BE chunk_offset ++ tail)

/-- Embeds `MoovBuilder::buildStco`: fails on empty frames or on 32-bit chunk-offset
overflow. -/
def buildStco (frames : List FrameInfo) (mdat_start : Nat) : Option (List Nat) :=
  if frames.isEmpty then none
  else
    (stcoEntries mdat_start frames).map (fun body =>
      writeAtomHeader tagStco (8 + 8 + frames.length * 4) ++
      writeUint32BE 0 ++
      writeUint32BE frames.length ++
      body)

/-- Embeds `MoovBuilder::buildStsc`: fails on empty frames; single entry
(first_chunk 1, samples_per_chunk 1, sample_description_index 1). -/
def buildStsc (frames : List FrameInfo) : Option (List Nat) :=
  if frames.isEmpty then none
  else
    some (writeAtomHeader tagStsc (8 + 8 + 12) ++
          writeUint32BE 0 ++
          writeUint32BE 1 ++
          writeUint32BE 1 ++
          writeUint32BE 1 ++
          writeUint32BE 1)

/-- NAL start-code stripping applied to provided SPS/PPS in `buildStsd`
(4-byte 00 00 00 01 first, then 3-byte 00 00 01). -/
def stripNalStartCode (xs : List Nat) : List Nat :=
  if xs.take 4 = [0, 0, 0, 1] then xs.drop 4
  else if xs.take 3 = [0, 0, 1] then xs.drop 3
  else xs

/-- Fallback SPS bytes for 640x480 H.264 Baseline (`buildStsd`). -/
def fallbackSps : List Nat := [0x42, 0x00, 0x1E, 0xE1, 0x00, 0x00, 0x00]

/-- Fallback PPS bytes (`buildStsd`). -/
def fallbackPps : List Nat := [0xE1, 0x00]

/-- Embeds `MoovBuilder::buildStsd`: sample-description box. Empty `h264_sps` /
`h264_pps` model the null-or-zero-size case (`h264_sps && h264_sps_size > 0`
is false exactly when the recorder's stored vector is empty). The source
always returns true, so this is a pure function. -/
def buildStsd (codec : Codec) (width height audio_sample_rate audio_channels : Nat)
    (h264_sps h264_pps : List Nat) : List Nat :=
  let stsd_entries :=
    match codec with
    | .avc1 =>
      let sps_data := if h264_sps ≠ [] then stripNalStartCode h264_sps else fallbackSps
      let pps_data := if h264_pps ≠ [] then stripNalStartCode h264_pps else fallbackPps
      let avcc_size := 8 + 1 + 1 + 1 + 1 + 1 + 1 + 2 + sps_data.length + 1 + 2 + pps_data.length
      let avc1_size := 4 + 4 + 6 + 2 + 2 + 2 + 4 + 4 + 4 + 2 + 2 + 4 + 4 + 4 + 2 + 32 + 2 + 2 + avcc_size
      -- profile/compatibility/level from SPS bytes [1..3] when SPS length >= 4
      let profile := if sps_data.length ≥ 4 then sps_data.getD 1 0 else 0x42
      let compatibility := if sps_data.length ≥ 4 then sps_data.getD 2 0 else 0x00
      let level := if sps_data.length ≥ 4 then sps_data.getD 3 0 else 0x1F
      writeUint32BE avc1_size ++ tagAvc1 ++
      List.replicate 6 0 ++              -- reserved
      writeUint16BE 1 ++                 -- data reference index
      writeUint16BE 0 ++ writeUint16BE 0 ++  -- version, revision
      writeUint32BE 0 ++                 -- vendor
      writeUint32BE 0 ++                 -- temporal quality
      writeUint32BE 0 ++                 -- spatial quality
      writeUint16BE width ++             -- width (uint32 -> uint16 narrowing)
      writeUint16BE height ++            -- height
      writeUint32BE 0x00480000 ++        -- horizontal resolution 72 dpi
      writeUint32BE 0x00480000 ++        -- vertical resolution 72 dpi
      writeUint32BE 0 ++                 -- data size
      writeUint16BE 1 ++                 -- frame count
      List.replicate 32 0 ++             -- compressor name
      writeUint16BE 24 ++                -- depth
      writeUint16BE 0xFFFF ++            -- color table ID
      writeUint32BE avcc_size ++ tagAvcC ++
      writeUint8 0x01 ++                 -- avcC version
      writeUint8 profile ++
      writeUint8 compatibility ++
      writeUint8 level ++
      writeUint8 0xFF ++                 -- reserved + nal_length_size-1 = 3
      writeUint8 0xE1 ++                 -- 1 SPS
      writeUint16BE sps_data.length ++
      sps_data.flatMap writeUint8 ++
      writeUint8 0x01 ++                 -- 1 PPS
      writeUint16BE pps_data.length ++
      pps_data.flatMap writeUint8
    | .mp4a =>
      let channel_count := if audio_channels > 0 then audio_channels else 2
      let sample_rate := if audio_sample_rate > 0 then audio_sample_rate else 48000
      let sample_rate_index := getSampleRateIndex sample_rate
      -- AudioSpecificConfig (AAC-LC): object type 2, rate index, channel config
      let asc_bits := ((2 % 32) <<< 11 ||| (sample_rate_index % 16) <<< 7 |||
                       (channel_count % 16) <<< 3) % 2 ^ 16
      let asc_bytes := [(asc_bits >>> 8) % 256, asc_bits % 256]
      let decoder_config :=
        writeUint8 0x40 ++               -- objectTypeIndication (AAC)
        writeUint8 0x15 ++               -- streamType audio << 2 | 1
        writeUint8 0 ++ writeUint8 0 ++ writeUint8 0 ++  -- bufferSizeDB (24-bit)
        writeUint32BE 0 ++               -- maxBitrate
        writeUint32BE 0 ++               -- avgBitrate
        [0x05] ++ writeDescriptorLength 2 ++ asc_bytes  -- DecoderSpecificInfo
      let sl_config := [0x06] ++ writeDescriptorLength 1 ++ [0x02]
      let decoder_config_descriptor :=
        [0x04] ++ writeDescriptorLength decoder_config.length ++ decoder_config
      let es_descriptor :=
        writeUint16BE 2 ++ writeUint8 0 ++  -- ES_ID 2, flags
        decoder_config_descriptor ++ sl_config
      let esds_payload :=
        writeUint32BE 0 ++ [0x03] ++
        writeDescriptorLength es_descriptor.length ++ es_descriptor
      let esds_box := writeAtomHeader tagEsds (8 + esds_payload.length) ++ esds_payload
      let mp4a_size := 36 + esds_box.length
      writeUint32BE mp4a_size ++ tagMp4a ++
      List.replicate 6 0 ++              -- reserved
      writeUint16BE 1 ++                 -- data reference index
      writeUint16BE 0 ++ writeUint16BE 0 ++  -- version, revision
      writeUint32BE 0 ++                 -- vendor
      writeUint16BE channel_count ++
      writeUint16BE 16 ++                -- sample size
      writeUint16BE 0 ++                 -- compression ID
      writeUint16BE 0 ++                 -- packet size
      writeUint32BE (sample_rate <<< 16) ++  -- sample rate 16.16
      esds_box
  writeAtomHeader tagStsd (8 + 8 + stsd_entries.length) ++
  writeUint32BE 0 ++
  writeUint32BE 1 ++
  stsd_entries

/-- Embeds `MoovBuilder::buildTrak`: assembles one trak box.  `frames.back()` is
modelled with `getD` (the source only calls `buildTrak` with non-empty
frame lists).  Fails (returns none) when one of the fallible sample-table
builders fails. -/
def buildTrak (frames : List FrameInfo) (track_id timescale : Nat) (codec : Codec)
    (video_width video_height audio_sample_rate audio_channels : Nat)
    (h264_sps h264_pps : List Nat) (mdat_start : Nat) : Option (List Nat) :=
  let lastFrame := frames.getD (frames.length - 1) dummyFrame
  -- tkhd duration is in the mvhd timescale: (back().pts * 1000) / timescale,
  -- int64 division truncating toward zero, narrowed to uint32.
  let tkhd_duration := u32ofInt ((lastFrame.pts * 1000).tdiv (timescale : Int))
  let volume : Nat := match codec with | .avc1 => 0 | .mp4a => 0x0100
  let widthHeightBytes :=
    match codec with
    | .avc1 =>
      if video_width > 0 ∧ video_height > 0 then
        writeUint32BE (video_width <<< 16) ++ writeUint32BE (video_height <<< 16)
      else writeUint32BE 0x00010000 ++ writeUint32BE 0x00010000
    | .mp4a => writeUint32BE 0x00010000 ++ writeUint32BE 0x00010000
  let tkhd_data :=
    writeAtomHeader tagTkhd 92 ++
    writeUint32BE 0x0000000F ++        -- version 0 + flags (enabled/in movie/in preview)
    writeUint32BE 0 ++                 -- creation time
    writeUint32BE 0 ++                 -- modification time
    writeUint32BE track_id ++
    writeUint32BE 0 ++                 -- reserved
    writeUint32BE tkhd_duration ++
    writeUint32BE 0 ++ writeUint32BE 0 ++  -- reserved (8 bytes)
    writeUint16BE 0 ++                 -- layer
    writeUint16BE 0 ++                 -- alternate group
    writeUint16BE volume ++
    writeUint16BE 0 ++                 -- reserved
    matrixBytes ++
    widthHeightBytes
  let mdhd_data :=
    writeAtomHeader tagMdhd 32 ++
    writeUint32BE 0 ++                 -- version 0 + flags 0
    writeUint32BE 0 ++                 -- creation time
    writeUint32BE 0 ++                 -- modification time
    writeUint32BE timescale ++
    writeUint32BE (u32ofInt lastFrame.pts) ++  -- duration = back().pts (int64 -> uint32)
    writeUint16BE 0x55C4 ++            -- language
    writeUint16BE 0                    -- quality
  let handler := match codec with | .avc1 => tagVide | .mp4a => tagSoun
  let hdlr_data :=
    writeAtomHeader tagHdlr 68 ++
    writeUint32BE 0 ++                 -- version 0 + flags 0
    writeUint32BE 0 ++                 -- pre_defined
    handler ++
    List.replicate 48 0                -- reserved (12 x u32)
  let media_header :=
    match codec with
    | .avc1 =>
      writeAtomHeader tagVmhd 20 ++ writeUint32BE 0 ++ writeUint16BE 0 ++
      writeUint16BE 0 ++ writeUint16BE 0 ++ writeUint16BE 0
    | .mp4a =>
      writeAtomHeader tagSmhd 16 ++ writeUint32BE 0 ++ writeUint16BE 0 ++ writeUint16BE 0
  let dref_data :=
    writeUint32BE 0 ++                 -- version 0 + flags 0
    writeUint32BE 1 ++                 -- entry count
    writeUint32BE 12 ++ tagUrl ++      -- url box, self-contained
    writeUint32BE 0x00000001
  let dref_box := writeAtomHeader tagDref (8 + dref_data.length) ++ dref_data
  let dinf_box := writeAtomHeader tagDinf (8 + dref_box.length) ++ dref_box
  let stsd_data := buildStsd codec video_width video_height audio_sample_rate
    audio_channels h264_sps h264_pps
  let stts_default := sttsDefaultDuration codec timescale
  match buildStts frames stts_default with
  | none => none
  | some stts_data =>
    let stss_data := match codec with | .avc1 => buildStss frames | .mp4a => []
    match buildStsz frames with
    | none => none
    | some stsz_data =>
      match buildStco frames mdat_start with
      | none => none
      | some stco_data =>
        match buildStsc frames with
        | none => none
        | some stsc_data =>
          -- stbl children are appended in source order:
          -- stsd, stts, (stss), stsz, stco, stsc
          let stbl_data := stsd_data ++ stts_data ++ stss_data ++ stsz_data ++
            stco_data ++ stsc_data
          let stbl_box := writeAtomHeader tagStbl (8 + stbl_data.length) ++ stbl_data
          let minf_data := media_header ++ dinf_box ++ stbl_box
          let minf_box := writeAtomHeader tagMinf (8 + minf_data.length) ++ minf_data
          let mdia_size := 8 + mdhd_data.length + hdlr_data.length + minf_box.length
          let mdia_box := writeAtomHeader tagMdia mdia_size ++ mdhd_data ++
            hdlr_data ++ minf_box
          let trak_size := 8 + tkhd_data.length + mdia_box.length
          some (writeAtomHeader tagTrak trak_size ++ tkhd_data ++ mdia_box)

/-- The mvhd duration computed in `buildMoov` (lines 40-48): the video
track's last PTS converted to milliseconds; audio does not contribute, and
the value stays 0 when no video frames exist. -/
def moovVideoDuration (video_frames : List FrameInfo) (video_timescale : Nat) : Nat :=
  if video_frames.isEmpty then 0
  else u32ofInt (((video_frames.getD (video_frames.length - 1) dummyFrame).pts * 1000).tdiv
                 (video_timescale : Int))

/-- Embeds `MoovBuilder::buildMoov`: mvhd plus an optional video trak (id 1) and an
optional audio trak (id 2); a track is omitted when its record list is
empty. -/
def buildMoov (video_frames audio_frames : List FrameInfo)
    (video_timescale audio_timescale audio_sample_rate audio_channels : Nat)
    (video_width video_height : Nat) (h264_sps h264_pps : List Nat)
    (mdat_start : Nat) : Option (List Nat) :=
  let mvhd_data := buildMvhd (moovVideoDuration video_frames video_timescale)
  let video_trak? : Option (List Nat) :=
    if video_frames.isEmpty then some []
    else buildTrak video_frames 1 video_timescale .avc1 video_width video_height
      0 0 h264_sps h264_pps mdat_start
  match video_trak? with
  | none => none
  | some video_trak =>
    let audio_trak? : Option (List Nat) :=
      if audio_frames.isEmpty then some []
      else buildTrak audio_frames 2 audio_timescale .mp4a 0 0 audio_sample_rate
        audio_channels [] [] mdat_start
    match audio_trak? with
    | none => none
    | some audio_trak =>
      let moov_size := 8 + mvhd_data.length + video_trak.length + audio_trak.length
      some (writeAtomHeader tagMoov moov_size ++ mvhd_data ++ video_trak ++ audio_trak)

/-- Embeds `readBE32` (common.h) applied at a position of a byte list. -/
def readBE32at (p : List Nat) (pos : Nat) : Nat :=
  (p.getD pos 0) <<< 24 ||| (p.getD (pos + 1) 0) <<< 16 |||
  (p.getD (pos + 2) 0) <<< 8 ||| p.getD (pos + 3) 0

/-- The `handleNal` lambda in `extractH264ConfigFromSample`: record the first
SPS (NAL type 7) and first PPS (NAL type 8), each at most 256 bytes. -/
def handleNal (nal sps pps : List Nat) : List Nat × List Nat :=
  if nal.length = 0 then (sps, pps)
  else if nal.length > 256 then (sps, pps)
  else
    let nal_type := nal.getD 0 0 % 32   -- nal_data[0] & 0x1F
    if nal_type = 7 ∧ sps = [] then (nal, pps)
    else if nal_type = 8 ∧ pps = [] then (sps, nal)
    else (sps, pps)

/-- The Annex-B scanning loop of `extractH264ConfigFromSample` (while
`pos + 3 < size`): splits at 3- or 4-byte start codes, feeding each NAL to
`handleNal`, returning early once both SPS and PPS are found. -/
def annexBScan (sample : List Nat) (sps pps : List Nat) (pos start : Nat) :
    Bool × List Nat × List Nat :=
  if h : pos + 3 < sample.length then
    if sample.getD pos 0 = 0 ∧ sample.getD (pos + 1) 0 = 0 ∧
       sample.getD (pos + 2) 0 = 1 then
      -- 3-byte start code
      let pr := if start < pos then
          handleNal ((sample.drop start).take (pos - start)) sps pps
        else (sps, pps)
      if start < pos ∧ pr.1 ≠ [] ∧ pr.2 ≠ [] then (true, pr.1, pr.2)
      else annexBScan sample pr.1 pr.2 (pos + 3) (pos + 3)
    else if pos + 4 < sample.length ∧ sample.getD pos 0 = 0 ∧
            sample.getD (pos + 1) 0 = 0 ∧ sample.getD (pos + 2) 0 = 0 ∧
            sample.getD (pos + 3) 0 = 1 then
      -- 4-byte start code
      let pr := if start < pos then
          handleNal ((sample.drop start).take (pos - start)) sps pps
        else (sps, pps)
      if start < pos ∧ pr.1 ≠ [] ∧ pr.2 ≠ [] then (true, pr.1, pr.2)
      else annexBScan sample pr.1 pr.2 (pos + 4) (pos + 4)
    else annexBScan sample sps pps (pos + 1) start
  else
    -- trailing NAL after the loop
    let pr := if start < sample.length then handleNal (sample.drop start) sps pps
      else (sps, pps)
    (!pr.1.isEmpty && !pr.2.isEmpty, pr.1, pr.2)
termination_by sample.length - pos
decreasing_by all_goals omega

/-- The length-prefixed scanning loop of `extractH264ConfigFromSample`
(while `pos + 4 <= size`): 4-byte big-endian length followed by the NAL. -/
def lengthPrefixedScan (sample : List Nat) (sps pps : List Nat) (pos : Nat) :
    Bool × List Nat × List Nat :=
  if h : pos + 4 ≤ sample.length then
    let nal_size := readBE32at sample pos
    if h2 : nal_size = 0 ∨ pos + 4 + nal_size > sample.length then
      (!sps.isEmpty && !pps.isEmpty, sps, pps)      -- break
    else
      let pr := handleNal ((sample.drop (pos + 4)).take nal_size) sps pps
      if pr.1 ≠ [] ∧ pr.2 ≠ [] then (true, pr.1, pr.2)
      else lengthPrefixedScan sample pr.1 pr.2 (pos + 4 + nal_size)
  else (!sps.isEmpty && !pps.isEmpty, sps, pps)
termination_by sample.length - pos
decreasing_by omega

/-- Embeds `extractH264ConfigFromSample` (mp4_recorder.cpp, anonymous namespace). -/
def extractH264ConfigFromSample (sample sps pps : List Nat) :
    Bool × List Nat × List Nat :=
  if sample.length < 4 then (false, sps, pps)
  else if sample.take 4 = [0, 0, 0, 1] ∨ sample.take 3 = [0, 0, 1] then
    annexBScan sample sps pps 0 0
  else lengthPrefixedScan sample sps pps 0

/-- The per-frame loop of `extractH264ConfigFromMdat`: reads each video
sample at `mdat_start + offset` from the file bytes `p`, skipping zero-size
frames and short reads; SPS/PPS accumulate across frames. -/
def extractFromFrames (p : List Nat) (mdat_start : Nat) :
    List FrameInfo → List Nat → List Nat → Bool × List Nat × List Nat
  | [], sps, pps => (false, sps, pps)
  | f :: rest, sps, pps =>
    if f.size = 0 then extractFromFrames p mdat_start rest sps pps
    else
      let chunk := (p.drop (mdat_start + f.offset)).take f.size
      if chunk.length ≠ f.size then extractFromFrames p mdat_start rest sps pps
      else
        let r := extractH264ConfigFromSample chunk sps pps
        if r.1 then r
        else extractFromFrames p mdat_start rest r.2.1 r.2.2

/-- Embeds `extractH264ConfigFromMdat`: runs the frame loop with empty initial
SPS/PPS (the caller's by-reference vectors). -/
def extractH264ConfigFromMdat (p : List Nat) (mdat_start : Nat)
    (video_frames : List FrameInfo) : Bool × List Nat × List Nat :=
  extractFromFrames p mdat_start video_frames [] []

/-! Section: Recorder state model (mp4_recorder.cpp)

I/O is assumed to succeed on the modelled paths (write faults are not
modelled; the logic that decides the claims is the state bookkeeping and
the deterministic byte construction).  Wall-clock time enters only through
`flushIfNeeded`; the elapsed milliseconds are passed as an explicit
argument to each write call. -/

/-- The in-memory recorder state together with the on-disk session artifacts
it owns.  `mdatBytes` are the sample bytes appended after the 8-byte mdat
header; `idxRecords` are the journal records in append order. -/
structure RecState where
  recording : Bool
  frame_count : Nat            -- uint64_t
  mdat_start : Nat             -- uint64_t (40 after a successful start)
  mdat_size : Nat              -- uint64_t
  mdatSizeField : Nat          -- the 4-byte size field at offset 32 of P
  video_frames : List FrameInfo
  audio_frames : List FrameInfo
  idxRecords : List FrameInfo
  mdatBytes : List Nat
  moovBytes : Option (List Nat)  -- moov appended to P by stop, if any
  idxExists : Bool
  lockExists : Bool
  config : RecorderConfig
  h264_sps : List Nat
  h264_pps : List Nat
  frames_since_flush : Nat     -- uint32_t
deriving DecidableEq

/-- The state immediately after a successful `start(path, config)`:
ftyp (32 bytes) and the zeroed mdat header are on disk, `mdat_start` is 40,
both sidecars exist. -/
def initRecState (cfg : RecorderConfig) : RecState :=
  ⟨true, 0, 40, 0, 0, [], [], [], [], none, true, true, cfg, [], [], 0⟩

/-- Embeds `Mp4Recorder::flushIfNeeded`: the modelled state change is the reset of
`frames_since_flush` when either threshold is reached (the stream flush and
fsync have no effect on the modelled bytes). -/
def flushIfNeeded (s : RecState) (elapsed_ms : Nat) : RecState :=
  if elapsed_ms ≥ s.config.flush_interval_ms ∨
     s.frames_since_flush ≥ s.config.flush_frame_count then
    { s with frames_since_flush := 0 }
  else s

/-- Embeds `Mp4Recorder::writeVideoFrame`: records the frame with
`offset = mdat_size_` before the mdat write, appends the sample bytes,
journals the record, then updates the counters.  There is no validation of
`data`; a zero-size write succeeds (`StdioFile::write` returns 0 = size). -/
def writeVideoFrame (s : RecState) (data : List Nat) (pts : Int)
    (is_keyframe : Bool) (elapsed_ms : Nat) : Bool × RecState :=
  if !s.recording then (false, s)
  else
    let size := data.length % 2 ^ 32     -- uint32_t size argument
    let frame : FrameInfo := ⟨s.mdat_size, size, pts, pts,
      if is_keyframe then 1 else 0, 0⟩
    let s1 := { s with mdatBytes := s.mdatBytes ++ data.take size }
    let s2 := { s1 with
      idxRecords := s1.idxRecords ++ [frame],
      video_frames := s1.video_frames ++ [frame] }
    let s3 := { s2 with
      mdat_size := (s2.mdat_size + size) % 2 ^ 64,
      frame_count := (s2.frame_count + 1) % 2 ^ 64,
      frames_since_flush := (s2.frames_since_flush + 1) % 2 ^ 32 }
    (true, flushIfNeeded s3 elapsed_ms)

/-- Embeds `Mp4Recorder::writeAudioFrame`: same structure; the record is built after
the mdat write, but `mdat_size_` has not been updated yet, so its offset
equals the pre-write mdat size just as for video.  `is_keyframe = 1`,
`track_id = 1`. -/
def writeAudioFrame (s : RecState) (data : List Nat) (pts : Int)
    (elapsed_ms : Nat) : Bool × RecState :=
  if !s.recording then (false, s)
  else
    let size := data.length % 2 ^ 32
    let s1 := { s with mdatBytes := s.mdatBytes ++ data.take size }
    let frame : FrameInfo := ⟨s.mdat_size, size, pts, pts, 1, 1⟩
    let s2 := { s1 with
      idxRecords := s1.idxRecords ++ [frame],
      audio_frames := s1.audio_frames ++ [frame] }
    let s3 := { s2 with
      mdat_size := (s2.mdat_size + size) % 2 ^ 64,
      frame_count := (s2.frame_count + 1) % 2 ^ 64,
      frames_since_flush := (s2.frames_since_flush + 1) % 2 ^ 32 }
    (true, flushIfNeeded s3 elapsed_ms)

/-- Embeds `Mp4Recorder::stop`: rejects when not recording; otherwise clears
`recording_` first, patches the mdat size field with `8 + mdat_size_`
(uint32), builds the moov, and on success removes both sidecars
(`cleanupFiles` ignores `remove` failures and always returns true). -/
def stop (s : RecState) : Bool × RecState :=
  if !s.recording then (false, s)
  else
    let s1 := { s with recording := false }
    let s2 := { s1 with mdatSizeField := (8 + s1.mdat_size) % 2 ^ 32 }
    match buildMoov s2.video_frames s2.audio_frames
      s2.config.video_timescale s2.config.audio_timescale
      s2.config.audio_sample_rate s2.config.audio_channels
      s2.config.video_width s2.config.video_height
      s2.h264_sps s2.h264_pps s2.mdat_start with
    | none => (false, s2)
    | some moov =>
      (true, { s2 with moovBytes := some moov, idxExists := false,
                       lockExists := false })

/-- Embeds `Mp4Recorder::hasIncompleteRecording`: both sidecars must exist.
`fsExists` abstracts `StdioFileOps::exists`. -/
def hasIncompleteRecording (fsExists : String → Bool) (filename : String) : Bool :=
  fsExists (filename ++ ".lock") && fsExists (filename ++ ".idx")

/-! Section: `createFiles` / `start` failure model

`createFiles` creates P, then P.idx, then P.lock, returning false as soon
as one `open` fails; the flags below say which opens succeed.  Neither
`createFiles` nor `start` unlinks anything on failure. -/

/-- Which of the three session artifacts exist on disk. -/
structure ArtifactSet where
  p : Bool
  idx : Bool
  lock : Bool
deriving DecidableEq

/-- Embeds `Mp4Recorder::createFiles`: result flag plus the artifacts present on
disk afterwards (each artifact is created before the next open is
attempted; no cleanup happens on any failure path). -/
def createFiles (okMp4 okIdx okLock : Bool) : Bool × ArtifactSet :=
  if !okMp4 then (false, ⟨false, false, false⟩)
  else if !okIdx then (false, ⟨true, false, false⟩)
  else if !okLock then (false, ⟨true, true, false⟩)
  else (true, ⟨true, true, true⟩)

/-- Embeds `Mp4Recorder::start`: rejects when already recording (disk untouched),
otherwise runs `createFiles` and fails without removing anything when it
fails. -/
def start (alreadyRecording : Bool) (okMp4 okIdx okLock : Bool) :
    Bool × ArtifactSet :=
  if alreadyRecording then (false, ⟨false, false, false⟩)
  else createFiles okMp4 okIdx okLock

/-! Section: Recovery driver (Mp4Recorder::recover) over an on-disk session -/

/-- The journal file contents: magic, configuration header, frame records. -/
structure IdxFileContent where
  magic : Nat                  -- uint32, must be 0x4D503452 ("MP4R")
  config : RecorderConfig
  records : List FrameInfo
deriving DecidableEq

/-- The on-disk session for one output path: the MP4 bytes of `P` (none if
the file is absent), the journal `P.idx`, and the presence of `P.lock`. -/
structure Disk where
  p : Option (List Nat)
  idx : Option IdxFileContent
  lock : Bool
deriving DecidableEq

def MP4R_MAGIC : Nat := 0x4D503452

/-- The 32-byte ftyp box written by `createFiles` (major brand `isom`,
minor version 0x200, compatible brands isom/iso2/avc1/mp41). -/
def ftypBytes : List Nat :=
  [0x00, 0x00, 0x00, 0x20] ++
  ['f'.toNat, 't'.toNat, 'y'.toNat, 'p'.toNat] ++
  ['i'.toNat, 's'.toNat, 'o'.toNat, 'm'.toNat] ++
  [0x00, 0x00, 0x02, 0x00] ++
  ['i'.toNat, 's'.toNat, 'o'.toNat, 'm'.toNat] ++
  ['i'.toNat, 's'.toNat, 'o'.toNat, '2'.toNat] ++
  ['a'.toNat, 'v'.toNat, 'c'.toNat, '1'.toNat] ++
  ['m'.toNat, 'p'.toNat, '4'.toNat, '1'.toNat]

/-- The 8-byte mdat placeholder header written by `createFiles`
(size field 0, to be patched on stop/recovery). -/
def mdatHeaderBytes : List Nat := [0x00, 0x00, 0x00, 0x00] ++ tagMdat

/-- Recovery step 4: overwrite the 4 bytes at offset 32 (the mdat size
field) with big-endian `file_size - 32`. -/
def patchMdatSize (p : List Nat) : List Nat :=
  p.take 32 ++ writeUint32BE (p.length - 32) ++ p.drop 36

/-- Embeds `Mp4Recorder::recover`: reads the journal, patches the mdat size field
from the current file size, extracts SPS/PPS from the (already patched and
flushed) file, synthesizes the moov, appends it, and unlinks both sidecars
(`remove` failures are only logged, so the sidecars are gone in the result
either way).  Returns the success flag together with the disk as mutated up
to the failure point. -/
def recover (d : Disk) : Bool × Disk :=
  match d.idx with
  | none => (false, d)                                -- idx.open failed
  | some idx =>
    if idx.magic ≠ MP4R_MAGIC then (false, d)         -- readConfig: bad magic
    else
      -- readAllFrames partitions the records by track_id
      let video_frames := idx.records.filter (fun f => f.track_id = 0)
      let audio_frames := idx.records.filter (fun f => f.track_id = 1)
      let mdat_start := 40
      match d.p with
      | none => (false, d)                            -- cannot open P
      | some p =>
        let file_size := p.length
        if file_size < 40 then (false, d)
        else if file_size - 32 > 0xFFFFFFFF then (false, d)
        else
          let p1 := patchMdatSize p
          let ext := extractH264ConfigFromMdat p1 mdat_start video_frames
          match buildMoov video_frames audio_frames
            idx.config.video_timescale idx.config.audio_timescale
            idx.config.audio_sample_rate idx.config.audio_channels
            idx.config.video_width idx.config.video_height
            ext.2.1 ext.2.2 mdat_start with
          | none => (false, { d with p := some p1 })  -- moov build failed
          | some moov => (true, ⟨some (p1 ++ moov), none, false⟩)

/-- The moov produced for a session with zero journal records: a bare moov
box holding only the 108-byte mvhd (duration 0). -/
def emptyMoov : List Nat := writeAtomHeader tagMoov 116 ++ buildMvhd 0

/-! Section: Shared concrete inputs and helper lemmas -/

/-- Bytes of `P` right after `start`: 32-byte ftyp followed by the zeroed mdat header. -/
def p0 : List Nat := ftypBytes ++ mdatHeaderBytes

/-- A journal with valid magic, the default configuration and no records. -/
def idx0 : IdxFileContent := ⟨MP4R_MAGIC, defaultConfig, []⟩

/-- An interrupted session crashed right after `start`: both sidecars
present, zero journal records. -/
def d0 : Disk := ⟨some p0, some idx0, true⟩

/-- The session of `d0` after recovery crashed between step 7 (moov
appended) and step 8 (sidecar unlink): `P` is finalized, sidecars remain. -/
def d7 : Disk := ⟨some (patchMdatSize p0 ++ emptyMoov), some idx0, true⟩

/-- A two-sample audio track whose PTS delta (500) differs from the AAC
default duration 1024. -/
def audioPair : List FrameInfo :=
  [⟨0, 200, 0, 0, 1, 1⟩, ⟨200, 200, 500, 500, 1, 1⟩]

/-- A one-sample audio track with last pts 48000 at timescale 48000
(so the claimed mvhd duration would be 1000 ms). -/
def audioOne : List FrameInfo := [⟨0, 200, 48000, 48000, 1, 1⟩]

@[simp] theorem flushIfNeeded_recording (s : RecState) (e : Nat) :
    (flushIfNeeded s e).recording = s.recording := by
  unfold flushIfNeeded; split <;> rfl

@[simp] theorem flushIfNeeded_idxRecords (s : RecState) (e : Nat) :
    (flushIfNeeded s e).idxRecords = s.idxRecords := by
  unfold flushIfNeeded; split <;> rfl

@[simp] theorem flushIfNeeded_mdatBytes (s : RecState) (e : Nat) :
    (flushIfNeeded s e).mdatBytes = s.mdatBytes := by
  unfold flushIfNeeded; split <;> rfl

@[simp] theorem flushIfNeeded_mdat_size (s : RecState) (e : Nat) :
    (flushIfNeeded s e).mdat_size = s.mdat_size := by
  unfold flushIfNeeded; split <;> rfl

@[simp] theorem flushIfNeeded_video_frames (s : RecState) (e : Nat) :
    (flushIfNeeded s e).video_frames = s.video_frames := by
  unfold flushIfNeeded; split <;> rfl

@[simp] theorem flushIfNeeded_audio_frames (s : RecState) (e : Nat) :
    (flushIfNeeded s e).audio_frames = s.audio_frames := by
  unfold flushIfNeeded; split <;> rfl

@[simp] theorem flushIfNeeded_config (s : RecState) (e : Nat) :
    (flushIfNeeded s e).config = s.config := by
  unfold flushIfNeeded; split <;> rfl

/-! Section: Claim C7 -/

/-- C7: `hasIncompleteRecording(path)` returns true exactly when both
sidecar files `path + ".lock"` and `path + ".idx"` exist. -/
theorem hasIncompleteRecording_iff_both_sidecars (fsExists : String → Bool)
    (filename : String) :
    hasIncompleteRecording fsExists filename = true ↔
    (fsExists (filename ++ ".lock") = true ∧ fsExists (filename ++ ".idx") = true) := by
  simp [hasIncompleteRecording, Bool.and_eq_true]

/-! Section: Claim C8 -/

/-- C8 counterexample: when creating `P` succeeds but creating `P.idx`
fails, `start` fails and the partially created `P` is left on disk — no
unlink of siblings happens, contradicting the claim that no partial
artifact remains. -/
theorem start_idx_failure_leaves_mp4_on_disk :
    start false true false true = (false, ⟨true, false, false⟩) ∧
    (⟨true, false, false⟩ : ArtifactSet) ≠ ⟨false, false, false⟩ := by
  decide

/-- C8 (amended): when `start`/`createFiles` fails because one of the three
artifacts cannot be created, no cleanup is performed: every artifact created
before the failing step remains on disk (`P` remains iff its open succeeded,
`P.idx` remains iff both its and `P`'s opens succeeded; `P.lock` is the last
to be created so it never remains on failure). -/
theorem createFiles_failure_leaves_partial_artifacts (okMp4 okIdx okLock : Bool)
    (hfail : ¬(okMp4 = true ∧ okIdx = true ∧ okLock = true)) :
    createFiles okMp4 okIdx okLock = (false, ⟨okMp4, okMp4 && okIdx, false⟩) ∧
    start false okMp4 okIdx okLock = (false, ⟨okMp4, okMp4 && okIdx, false⟩) := by
  revert hfail
  cases okMp4 <;> cases okIdx <;> cases okLock <;> decide

theorem createFiles_failure_leaves_partial_artifacts_witness :
    ¬(true = true ∧ false = true ∧ true = true) ∧
    createFiles true false true = (false, ⟨true, false, false⟩) :=
  ⟨by decide, (createFiles_failure_leaves_partial_artifacts true false true (by decide)).1⟩

/-! Section: Claim C9 -/

/-- C9 counterexample: `writeVideoFrame` with an empty buffer on a freshly
started recorder is not rejected: it succeeds and appends a zero-size
record to the journal, contradicting the claimed `InvalidArgument`
rejection. -/
theorem writeVideoFrame_empty_buffer_accepted :
    (writeVideoFrame (initRecState defaultConfig) [] 0 true 0).1 = true ∧
    (writeVideoFrame (initRecState defaultConfig) [] 0 true 0).2.idxRecords =
      [⟨0, 0, 0, 0, 1, 0⟩] := by
  decide

/-- C9 (amended): the write path performs no buffer validation: on any
recording state, a write with an empty (size 0) buffer succeeds, appends a
zero-size record to the journal (and the in-memory track list), and leaves
the mdat bytes unchanged — for video and audio alike.  (A null pointer with
nonzero size is undefined behaviour in the source and is not modelled.) -/
theorem write_empty_buffer_succeeds_and_journals (s : RecState) (pts : Int)
    (key : Bool) (e : Nat) (hrec : s.recording = true) :
    (writeVideoFrame s [] pts key e).1 = true ∧
    (writeVideoFrame s [] pts key e).2.mdatBytes = s.mdatBytes ∧
    (writeVideoFrame s [] pts key e).2.idxRecords =
      s.idxRecords ++ [⟨s.mdat_size, 0, pts, pts, if key then 1 else 0, 0⟩] ∧
    (writeAudioFrame s [] pts e).1 = true ∧
    (writeAudioFrame s [] pts e).2.mdatBytes = s.mdatBytes ∧
    (writeAudioFrame s [] pts e).2.idxRecords =
      s.idxRecords ++ [⟨s.mdat_size, 0, pts, pts, 1, 1⟩] := by
  unfold writeVideoFrame writeAudioFrame
  simp [hrec]

theorem write_empty_buffer_succeeds_and_journals_witness :
    (initRecState defaultConfig).recording = true ∧
    (writeVideoFrame (initRecState defaultConfig) [] 7 false 0).2.idxRecords =
      (initRecState defaultConfig).idxRecords ++ [⟨0, 0, 7, 7, 0, 0⟩] := by
  refine ⟨by decide, ?_⟩
  have h := write_empty_buffer_succeeds_and_journals (initRecState defaultConfig)
    7 false 0 (by decide)
  simpa using h.2.2.1

/-! Section: Claim C10 -/

/-- C10: any `stop()` on a recording session — succeeding or failing —
leaves `isRecording()` false (the flag is cleared before every fallible
finalization step), and a retried `stop()` is rejected as NotRecording with
the state unchanged. -/
theorem stop_clears_recording_flag (s : RecState) (hrec : s.recording = true) :
    (stop s).2.recording = false ∧
    stop (stop s).2 = (false, (stop s).2) := by
  have key : ∀ t : RecState, t.recording = false → stop t = (false, t) := by
    intro t ht
    unfold stop
    simp [ht]
  have hres : (stop s).2.recording = false := by
    unfold stop
    simp only [hrec, Bool.not_true, Bool.false_eq_true, if_false]
    split <;> rfl
  exact ⟨hres, key _ hres⟩

theorem stop_clears_recording_flag_witness :
    (initRecState defaultConfig).recording = true ∧
    (stop (initRecState defaultConfig)).2.recording = false :=
  ⟨by decide, (stop_clears_recording_flag (initRecState defaultConfig) (by decide)).1⟩

/-! Section: Claim C3 -/

/-- Expansion of `(count, duration)` stts entries back into the per-sample
duration list. -/
def rleExpand (entries : List (Nat × Nat)) : List Nat :=
  entries.flatMap (fun e => List.replicate e.1 e.2)

theorem sttsGroup_expand (ds : List Nat) :
    ∀ (acc : List (Nat × Nat)) (cd cc : Nat),
      rleExpand (sttsGroup ds acc cd cc) =
      rleExpand acc ++ List.replicate cc cd ++ ds := by
  induction ds with
  | nil =>
    intro acc cd cc
    unfold sttsGroup
    split
    · simp [rleExpand]
    · have hcc : cc = 0 := by omega
      simp [hcc, rleExpand]
  | cons d rest ih =>
    intro acc cd cc
    unfold sttsGroup
    split
    · next hcase =>
      rw [ih]
      rcases hcase with hd | hcc
      · subst hd
        simp [List.replicate_succ' cc d]
      · subst hcc
        simp
    · next hcase =>
      rw [ih]
      simp [rleExpand, List.flatMap_append]

@[simp] theorem sttsDurations_length (frames : List FrameInfo) (dd : Nat) :
    (sttsDurations frames dd).length = frames.length := by
  simp [sttsDurations]

theorem sttsDurations_getD (frames : List FrameInfo) (dd i : Nat)
    (hi : i < frames.length) :
    (sttsDurations frames dd).getD i 0 =
    (if i + 1 < frames.length then
      u32ofInt ((frames.getD (i + 1) dummyFrame).pts - (frames.getD i dummyFrame).pts)
     else sttsEffectiveDefault frames dd) := by
  unfold sttsDurations
  rw [List.getD_eq_getElem?_getD, List.getElem?_map, List.getElem?_range hi]
  rfl

/-- C3 counterexample: an audio track with two samples whose PTS delta is
500 — the final stts sample duration is 500 (the previous delta), not the
claimed audio default 1024. -/
theorem stts_audio_final_duration_not_default :
    (sttsDurations audioPair (sttsDefaultDuration Codec.mp4a 48000)).getLast? =
      some 500 ∧
    (sttsDurations audioPair (sttsDefaultDuration Codec.mp4a 48000)).getLast? ≠
      some 1024 ∧
    sttsEntries audioPair (sttsDefaultDuration Codec.mp4a 48000) = [(2, 500)] := by
  decide

/-- C3 (amended): for every non-empty track the per-sample stts durations
are the successive PTS deltas and the final sample receives the previous
PTS delta whenever the track has at least two samples — for audio as well
as video.  The configured defaults (1024 for audio; `max(timescale/30, 1)`
for video, as passed from `buildTrak`) apply only to single-sample tracks.
The `(count, duration)` entries are the run-length encoding of that
duration list. -/
theorem stts_durations_spec (frames : List FrameInfo) (codec : Codec)
    (timescale : Nat) (hne : frames ≠ []) :
    (∀ i, i + 1 < frames.length →
      (sttsDurations frames (sttsDefaultDuration codec timescale)).getD i 0 =
      u32ofInt ((frames.getD (i + 1) dummyFrame).pts - (frames.getD i dummyFrame).pts)) ∧
    (2 ≤ frames.length →
      (sttsDurations frames (sttsDefaultDuration codec timescale)).getLast? =
      some (u32ofInt ((frames.getD (frames.length - 1) dummyFrame).pts -
                      (frames.getD (frames.length - 2) dummyFrame).pts))) ∧
    (frames.length = 1 →
      (sttsDurations frames (sttsDefaultDuration codec timescale)).getLast? =
      some (sttsDefaultDuration codec timescale)) ∧
    sttsDefaultDuration Codec.mp4a timescale = 1024 ∧
    sttsDefaultDuration Codec.avc1 timescale = max (timescale / 30) 1 ∧
    rleExpand (sttsEntries frames (sttsDefaultDuration codec timescale)) =
      sttsDurations frames (sttsDefaultDuration codec timescale) := by
  have hlen : 0 < frames.length := List.length_pos.mpr hne
  have hlast : ∀ dd : Nat, (sttsDurations frames dd).getLast? =
      some ((sttsDurations frames dd).getD (frames.length - 1) 0) := by
    intro dd
    have h1 : (sttsDurations frames dd).length = frames.length :=
      sttsDurations_length frames dd
    rw [List.getLast?_eq_getElem?, List.getD_eq_getElem?_getD, h1]
    have h2 : frames.length - 1 < (sttsDurations frames dd).length := by omega
    rw [List.getElem?_eq_getElem h2]
    rfl
  refine ⟨?_, ?_, ?_, rfl, ?_, ?_⟩
  · intro i hi
    rw [sttsDurations_getD frames _ i (by omega)]
    simp [hi]
  · intro h2
    rw [hlast, sttsDurations_getD frames _ _ (by omega)]
    have hnotlt : ¬(frames.length - 1 + 1 < frames.length) := by omega
    simp only [hnotlt, if_false]
    unfold sttsEffectiveDefault
    simp [h2]
  · intro h1
    rw [hlast, sttsDurations_getD frames _ _ (by omega)]
    have hnotlt : ¬(frames.length - 1 + 1 < frames.length) := by omega
    simp only [hnotlt, if_false]
    unfold sttsEffectiveDefault
    simp [h1]
  · by_cases hts : 30 ≤ timescale
    · have h1 : 1 ≤ timescale / 30 := (Nat.one_le_div_iff (by norm_num)).mpr hts
      simp [sttsDefaultDuration, hts, Nat.max_eq_left h1]
    · have h0 : timescale / 30 = 0 := Nat.div_eq_of_lt (by omega)
      simp [sttsDefaultDuration, hts, h0]
  · unfold sttsEntries
    rw [sttsGroup_expand]
    simp [rleExpand]

theorem stts_durations_spec_witness :
    audioPair ≠ [] ∧
    (sttsDurations audioPair (sttsDefaultDuration Codec.mp4a 48000)).getLast? =
      some (u32ofInt ((audioPair.getD 1 dummyFrame).pts -
                      (audioPair.getD 0 dummyFrame).pts)) := by
  refine ⟨by decide, ?_⟩
  have h := stts_durations_spec audioPair Codec.mp4a 48000 (by decide)
  simpa using h.2.1 (by decide)

/-! Section: Claim C5 -/

theorem stcoEntries_eq_none_iff (ms : Nat) (frames : List FrameInfo)
    (hbound : ∀ f ∈ frames, ms + f.offset < 2 ^ 64) :
    stcoEntries ms frames = none ↔ ∃ f ∈ frames, 0xFFFFFFFF < ms + f.offset := by
  induction frames with
  | nil => simp [stcoEntries]
  | cons f rest ih =>
    have hf : ms + f.offset < 2 ^ 64 := hbound f (by simp)
    have hmod : (ms + f.offset) % 2 ^ 64 = ms + f.offset := Nat.mod_eq_of_lt hf
    have ih' := ih (fun g hg => hbound g (by simp [hg]))
    unfold stcoEntries
    simp only [hmod]
    by_cases hov : 0xFFFFFFFF < ms + f.offset
    · rw [if_pos hov]
      exact iff_of_true rfl ⟨f, by simp, hov⟩
    · rw [if_neg hov, Option.map_eq_none', ih']
      constructor
      · rintro ⟨g, hg, hov2⟩
        exact ⟨g, List.mem_cons_of_mem f hg, hov2⟩
      · rintro ⟨g, hg, hov2⟩
        rcases List.mem_cons.mp hg with rfl | hg2
        · exact absurd hov2 hov
        · exact ⟨g, hg2, hov2⟩

theorem stcoEntries_eq_some (ms : Nat) (frames : List FrameInfo)
    (hbound : ∀ f ∈ frames, ms + f.offset < 2 ^ 64) (body : List Nat)
    (hsome : stcoEntries ms frames = some body) :
    body = frames.flatMap (fun f => writeUint32BE (ms + f.offset)) := by
  induction frames generalizing body with
  | nil =>
    simp [stcoEntries] at hsome
    simp [← hsome]
  | cons f rest ih =>
    have hf : ms + f.offset < 2 ^ 64 := hbound f (by simp)
    have hmod : (ms + f.offset) % 2 ^ 64 = ms + f.offset := Nat.mod_eq_of_lt hf
    unfold stcoEntries at hsome
    simp only [hmod] at hsome
    by_cases hov : 0xFFFFFFFF < ms + f.offset
    · simp [hov] at hsome
    · simp only [hov, if_false, if_neg hov] at hsome
      cases hrest : stcoEntries ms rest with
      | none => simp [hrest] at hsome
      | some tail =>
        simp [hrest] at hsome
        have htail := ih (fun g hg => hbound g (by simp [hg])) tail hrest
        simp [← hsome, htail]

/-- C5: for every non-empty track (the builder is only invoked on non-empty
record lists) whose u64 offset computations do not wrap, `buildStco` fails
exactly when some computed chunk offset `mdat_start + record.offset`
exceeds 0xFFFFFFFF, and on success the box holds one big-endian entry
`mdat_start + record.offset` per sample, in record order. -/
theorem buildStco_spec (frames : List FrameInfo) (ms : Nat)
    (hne : frames ≠ []) (hbound : ∀ f ∈ frames, ms + f.offset < 2 ^ 64) :
    (buildStco frames ms = none ↔ ∃ f ∈ frames, 0xFFFFFFFF < ms + f.offset) ∧
    (∀ body, buildStco frames ms = some body →
      body = writeAtomHeader tagStco (8 + 8 + frames.length * 4) ++
             writeUint32BE 0 ++ writeUint32BE frames.length ++
             frames.flatMap (fun f => writeUint32BE (ms + f.offset))) := by
  have hemp : frames.isEmpty = false := by
    cases frames with
    | nil => exact absurd rfl hne
    | cons f rest => rfl
  constructor
  · unfold buildStco
    rw [hemp]
    simp only [Bool.false_eq_true, if_false, Option.map_eq_none']
    exact stcoEntries_eq_none_iff ms frames hbound
  · intro body hsome
    unfold buildStco at hsome
    rw [hemp] at hsome
    simp only [Bool.false_eq_true, if_false, Option.map_eq_some'] at hsome
    obtain ⟨entries, hent, hbody⟩ := hsome
    rw [← hbody, stcoEntries_eq_some ms frames hbound entries hent]

theorem buildStco_spec_witness :
    audioPair ≠ [] ∧
    (∀ f ∈ audioPair, 40 + f.offset < 2 ^ 64) ∧
    buildStco audioPair 40 =
      some (writeAtomHeader tagStco (8 + 8 + audioPair.length * 4) ++
            writeUint32BE 0 ++ writeUint32BE audioPair.length ++
            audioPair.flatMap (fun f => writeUint32BE (40 + f.offset))) := by
  refine ⟨by decide, by decide, ?_⟩
  have h := buildStco_spec audioPair 40 (by decide) (by decide)
  cases hb : buildStco audioPair 40 with
  | none => exact absurd hb (by decide)
  | some body =>
    exact congrArg some (h.2 body hb)


/-! Section: Claim C6 -/

/-- One successful write call of a session, with the elapsed time used by
the flush policy. -/
inductive WriteCall where
  | video (data : List Nat) (pts : Int) (key : Bool) (elapsed_ms : Nat)
  | audio (data : List Nat) (pts : Int) (elapsed_ms : Nat)

/-- The `uint32_t` size argument of a call (`data.size()`). -/
def callBytes : WriteCall → Nat
  | .video data _ _ _ => data.length % 2 ^ 32
  | .audio data _ _ => data.length % 2 ^ 32

def doCall (s : RecState) (c : WriteCall) : RecState :=
  match c with
  | .video data pts key e => (writeVideoFrame s data pts key e).2
  | .audio data pts e => (writeAudioFrame s data pts e).2

/-- A sequence of `writeVideoFrame` / `writeAudioFrame` calls in one session. -/
def runWrites (s : RecState) (calls : List WriteCall) : RecState :=
  calls.foldl doCall s

/-- Sum of the `size` fields of a record list. -/
def journalSizesSum (l : List FrameInfo) : Nat := (l.map (fun f => f.size)).sum

/-- Each journal record's offset equals the sum of the sizes of all records
journaled before it. -/
def offsetsGood (l : List FrameInfo) : Prop :=
  ∀ k, k < l.length → (l.getD k dummyFrame).offset = journalSizesSum (l.take k)

theorem doCall_step (s : RecState) (c : WriteCall) (hrec : s.recording = true) :
    (doCall s c).recording = true ∧
    (∃ r : FrameInfo, r.offset = s.mdat_size ∧ r.size = callBytes c ∧
      (doCall s c).idxRecords = s.idxRecords ++ [r]) ∧
    (doCall s c).mdat_size = (s.mdat_size + callBytes c) % 2 ^ 64 := by
  cases c with
  | video data pts key e =>
    refine ⟨?_, ⟨⟨s.mdat_size, data.length % 2 ^ 32, pts, pts,
      if key then 1 else 0, 0⟩, rfl, rfl, ?_⟩, ?_⟩ <;>
      simp [doCall, writeVideoFrame, hrec, callBytes]
  | audio data pts e =>
    refine ⟨?_, ⟨⟨s.mdat_size, data.length % 2 ^ 32, pts, pts, 1, 1⟩,
      rfl, rfl, ?_⟩, ?_⟩ <;>
      simp [doCall, writeAudioFrame, hrec, callBytes]

theorem offsetsGood_append (l : List FrameInfo) (r : FrameInfo)
    (hgood : offsetsGood l) (hoff : r.offset = journalSizesSum l) :
    offsetsGood (l ++ [r]) := by
  intro k hk
  simp only [List.length_append, List.length_singleton] at hk
  by_cases hlt : k < l.length
  · have h1 : (l ++ [r]).getD k dummyFrame = l.getD k dummyFrame := by
      rw [List.getD_eq_getElem?_getD, List.getD_eq_getElem?_getD,
          List.getElem?_append_left hlt]
    have h2 : (l ++ [r]).take k = l.take k :=
      List.take_append_of_le_length (by omega)
    rw [h1, h2]
    exact hgood k hlt
  · have hk' : k = l.length := by omega
    subst hk'
    have h1 : (l ++ [r]).getD l.length dummyFrame = r := by
      rw [List.getD_eq_getElem?_getD, List.getElem?_append_right (le_refl _)]
      simp
    have h2 : (l ++ [r]).take l.length = l :=
      List.take_left l [r]
    rw [h1, h2, hoff]

theorem runWrites_invariant (calls : List WriteCall) :
    ∀ s : RecState, s.recording = true →
    s.mdat_size = journalSizesSum s.idxRecords →
    offsetsGood s.idxRecords →
    journalSizesSum s.idxRecords + (calls.map callBytes).sum < 2 ^ 64 →
    (runWrites s calls).recording = true ∧
    (runWrites s calls).mdat_size = journalSizesSum (runWrites s calls).idxRecords ∧
    offsetsGood (runWrites s calls).idxRecords ∧
    journalSizesSum (runWrites s calls).idxRecords =
      journalSizesSum s.idxRecords + (calls.map callBytes).sum := by
  induction calls with
  | nil =>
    intro s hrec hsz hgood _
    exact ⟨hrec, by simpa [runWrites] using hsz, by simpa [runWrites] using hgood,
      by simp [runWrites]⟩
  | cons c rest ih =>
    intro s hrec hsz hgood hbound
    obtain ⟨hrec', ⟨r, hroff, hrsz, hjr⟩, hms⟩ := doCall_step s c hrec
    have hsum' : journalSizesSum (doCall s c).idxRecords =
        journalSizesSum s.idxRecords + callBytes c := by
      rw [hjr]
      simp [journalSizesSum, hrsz]
    have hbound' : journalSizesSum (doCall s c).idxRecords +
        (rest.map callBytes).sum < 2 ^ 64 := by
      rw [hsum']
      simp only [List.map_cons, List.sum_cons] at hbound
      omega
    have hms' : (doCall s c).mdat_size = journalSizesSum (doCall s c).idxRecords := by
      rw [hms, hsz, hsum']
      exact Nat.mod_eq_of_lt (by omega)
    have hgood' : offsetsGood (doCall s c).idxRecords := by
      rw [hjr]
      exact offsetsGood_append _ _ hgood (by rw [hroff, hsz])
    have hrun : runWrites s (c :: rest) = runWrites (doCall s c) rest := rfl
    rw [hrun]
    obtain ⟨h1, h2, h3, h4⟩ := ih (doCall s c) hrec' hms' hgood' hbound'
    refine ⟨h1, h2, h3, ?_⟩
    rw [h4, hsum']
    simp only [List.map_cons, List.sum_cons]
    omega

theorem sum_take_mono (l : List Nat) (i k : Nat) (hik : i ≤ k) :
    (l.take i).sum ≤ (l.take k).sum := by
  conv_rhs => rw [show k = i + (k - i) by omega, List.take_add, List.sum_append]
  exact Nat.le_add_right _ _

/-- C6: for every sequence of successful write calls in one session (whose
total journaled byte count does not overflow uint64), every journal
record's offset equals the sum of the sizes of all previously journaled
samples, and the offsets are monotonically non-decreasing in call order —
hence per track and across tracks alike. -/
theorem journal_offsets_are_partial_sums (cfg : RecorderConfig)
    (calls : List WriteCall)
    (hov : (calls.map callBytes).sum < 2 ^ 64) :
    (∀ k, k < (runWrites (initRecState cfg) calls).idxRecords.length →
      ((runWrites (initRecState cfg) calls).idxRecords.getD k dummyFrame).offset =
      journalSizesSum ((runWrites (initRecState cfg) calls).idxRecords.take k)) ∧
    (∀ i k, i ≤ k → k < (runWrites (initRecState cfg) calls).idxRecords.length →
      ((runWrites (initRecState cfg) calls).idxRecords.getD i dummyFrame).offset ≤
      ((runWrites (initRecState cfg) calls).idxRecords.getD k dummyFrame).offset) := by
  have hinv := runWrites_invariant calls (initRecState cfg) rfl rfl
    (by intro k hk; simp [initRecState] at hk) (by simpa [initRecState, journalSizesSum])
  obtain ⟨-, -, hgood, -⟩ := hinv
  refine ⟨hgood, ?_⟩
  intro i k hik hk
  rw [hgood i (by omega), hgood k hk]
  unfold journalSizesSum
  rw [List.map_take, List.map_take]
  exact sum_take_mono _ i k hik

theorem journal_offsets_are_partial_sums_witness :
    ((List.map callBytes [WriteCall.video [1, 2, 3] 0 true 0,
        WriteCall.audio [4, 5] 0 0]).sum < 2 ^ 64) ∧
    ((runWrites (initRecState defaultConfig)
        [WriteCall.video [1, 2, 3] 0 true 0,
         WriteCall.audio [4, 5] 0 0]).idxRecords.getD 1 dummyFrame).offset =
      journalSizesSum ((runWrites (initRecState defaultConfig)
        [WriteCall.video [1, 2, 3] 0 true 0,
         WriteCall.audio [4, 5] 0 0]).idxRecords.take 1) := by
  refine ⟨by decide, ?_⟩
  have h := journal_offsets_are_partial_sums defaultConfig
    [WriteCall.video [1, 2, 3] 0 true 0, WriteCall.audio [4, 5] 0 0] (by decide)
  exact h.1 1 (by decide)

/-! Section: Claim C4 -/

/-- C4 counterexample: for an audio-only session whose single audio sample
has pts 48000 at timescale 48000 (duration 1000 ms), the synthesized mvhd
duration field (bytes 32..36 of the moov) is 0, not the claimed maximum of
the per-track durations (1000 ms). -/
theorem mvhd_duration_zero_for_audio_only :
    (buildMoov [] audioOne 30000 48000 48000 2 640 480 [] [] 40).map
      (fun m => (m.drop 32).take 4) = some (writeUint32BE 0) ∧
    writeUint32BE 0 ≠ writeUint32BE ((48000 * 1000) / 48000) := by
  decide

/-- C4 (amended): every synthesized moov carries an mvhd with version 0 and
flags 0 (bytes 16..20), timescale 1000 (bytes 28..32) and duration equal to
the video track's last PTS converted to milliseconds (bytes 32..36); the
audio track never contributes, and the duration is 0 whenever the session
has no video frames. -/
theorem buildMoov_mvhd_fields (v a : List FrameInfo)
    (vts ats rate ch w h : Nat) (sps pps : List Nat) (ms : Nat) (m : List Nat)
    (hm : buildMoov v a vts ats rate ch w h sps pps ms = some m) :
    (m.drop 16).take 4 = writeUint32BE 0 ∧
    (m.drop 28).take 4 = writeUint32BE 1000 ∧
    (m.drop 32).take 4 = writeUint32BE (moovVideoDuration v vts) ∧
    moovVideoDuration [] vts = 0 := by
  by_cases hv : v.isEmpty
  · by_cases ha : a.isEmpty
    · simp [buildMoov, hv, ha] at hm
      subst hm
      exact ⟨rfl, rfl, rfl, rfl⟩
    · cases hat : buildTrak a 2 ats Codec.mp4a 0 0 rate ch [] [] ms with
      | none => simp [buildMoov, hv, ha, hat] at hm
      | some audio_trak =>
        simp [buildMoov, hv, ha, hat] at hm
        subst hm
        exact ⟨rfl, rfl, rfl, rfl⟩
  · cases hvt : buildTrak v 1 vts Codec.avc1 w h 0 0 sps pps ms with
    | none => simp [buildMoov, hv, hvt] at hm
    | some video_trak =>
      by_cases ha : a.isEmpty
      · simp [buildMoov, hv, ha, hvt] at hm
        subst hm
        exact ⟨rfl, rfl, rfl, rfl⟩
      · cases hat : buildTrak a 2 ats Codec.mp4a 0 0 rate ch [] [] ms with
        | none => simp [buildMoov, hv, ha, hvt, hat] at hm
        | some audio_trak =>
          simp [buildMoov, hv, ha, hvt, hat] at hm
          subst hm
          exact ⟨rfl, rfl, rfl, rfl⟩

theorem buildMoov_mvhd_fields_witness :
    buildMoov [] [] 30000 48000 48000 2 640 480 [] [] 40 = some emptyMoov ∧
    (emptyMoov.drop 28).take 4 = writeUint32BE 1000 := by
  have hmm : buildMoov [] [] 30000 48000 48000 2 640 480 [] [] 40 = some emptyMoov := by
    decide
  exact ⟨hmm, (buildMoov_mvhd_fields [] [] 30000 48000 48000 2 640 480 [] [] 40
    emptyMoov hmm).2.1⟩

/-! Section: Claims C1 and C2 -/

theorem patchMdatSize_length (p : List Nat) (h : 36 ≤ p.length) :
    (patchMdatSize p).length = p.length := by
  simp [patchMdatSize, writeUint32BE]
  omega

theorem patchMdatSize_idem (p : List Nat) (h : 36 ≤ p.length) :
    patchMdatSize (patchMdatSize p) = patchMdatSize p := by
  have htake : (patchMdatSize p).take 32 = p.take 32 := by
    unfold patchMdatSize
    rw [List.append_assoc]
    exact List.take_left' (by rw [List.length_take]; omega)
  have hdrop : (patchMdatSize p).drop 36 = p.drop 36 := by
    unfold patchMdatSize
    exact List.drop_left' (by simp [writeUint32BE]; omega)
  calc patchMdatSize (patchMdatSize p)
      = (patchMdatSize p).take 32 ++
        writeUint32BE ((patchMdatSize p).length - 32) ++
        (patchMdatSize p).drop 36 := rfl
    _ = p.take 32 ++ writeUint32BE (p.length - 32) ++ p.drop 36 := by
        rw [htake, hdrop, patchMdatSize_length p h]
    _ = patchMdatSize p := rfl

theorem buildMoov_nil (a b c d e f : Nat) (sps pps : List Nat) (ms : Nat) :
    buildMoov [] [] a b c d e f sps pps ms = some emptyMoov := rfl

set_option maxRecDepth 4000 in
/-- C1 counterexample: for the interrupted session `d0` (empty journal,
40-byte `P`), a crash after recovery step 7 (moov appended) but before
step 8 (sidecar unlink) leaves the session `d7`; re-running `recover` on
`d7` succeeds but produces different final bytes of `P` than the single
uninterrupted run (it re-patches the mdat size from the grown file size and
appends a second moov), refuting the claimed idempotence after step 7. -/
theorem recover_after_moov_append_not_idempotent :
    recover d0 = (true, ⟨some (patchMdatSize p0 ++ emptyMoov), none, false⟩) ∧
    (recover d7).1 = true ∧
    (recover d7).2.p ≠ some (patchMdatSize p0 ++ emptyMoov) := by
  decide

/-- C1 (amended): the session is crash-resumable between step 4 (mdat size
patch) and step 7 (moov append): if recovery crashed after patching the
mdat size but before appending the moov, re-running `recover` produces
exactly the same result as a single uninterrupted run on the original
interrupted session, because the patch is determined by the (unchanged)
file length and re-patching is idempotent.  Once the moov bytes have been
appended (step 7 done) this fails — see the counterexample. -/
theorem recover_idempotent_before_moov_append (p : List Nat)
    (cfg : RecorderConfig) (recs : List FrameInfo) (lock : Bool)
    (h40 : 40 ≤ p.length) (hsz : p.length - 32 ≤ 0xFFFFFFFF) :
    recover ⟨some (patchMdatSize p), some ⟨MP4R_MAGIC, cfg, recs⟩, lock⟩ =
    recover ⟨some p, some ⟨MP4R_MAGIC, cfg, recs⟩, lock⟩ := by
  have h36 : 36 ≤ p.length := by omega
  have hlen := patchMdatSize_length p h36
  have hidem := patchMdatSize_idem p h36
  unfold recover
  simp only [hlen, hidem]
  have hmagic : ¬(MP4R_MAGIC ≠ MP4R_MAGIC) := by simp
  have hlt : ¬(p.length < 40) := by omega
  have hgt : ¬(p.length - 32 > 0xFFFFFFFF) := by omega
  simp only [if_neg hmagic, if_neg hlt, if_neg hgt]

theorem recover_idempotent_before_moov_append_witness :
    40 ≤ p0.length ∧
    recover ⟨some (patchMdatSize p0), some ⟨MP4R_MAGIC, defaultConfig, []⟩, true⟩ =
      recover ⟨some p0, some ⟨MP4R_MAGIC, defaultConfig, []⟩, true⟩ :=
  ⟨by decide, recover_idempotent_before_moov_append p0 defaultConfig [] true
    (by decide) (by decide)⟩

set_option maxRecDepth 4000 in
/-- C2 counterexample: for a session with zero journal records, `stop` and
`recover` do not fail with a NoFrames error: both succeed, a moov with no
tracks is synthesized, and the sidecars are removed rather than left in
place. -/
theorem stop_recover_zero_records_succeed :
    (stop (initRecState defaultConfig)).1 = true ∧
    (stop (initRecState defaultConfig)).2.idxExists = false ∧
    (stop (initRecState defaultConfig)).2.lockExists = false ∧
    (stop (initRecState defaultConfig)).2.moovBytes = some emptyMoov ∧
    (recover d0).1 = true ∧
    (recover d0).2.idx = none ∧
    (recover d0).2.lock = false := by
  decide

/-- C2 (amended): when the journal holds zero records, `stop` and `recover`
succeed instead of failing: they synthesize an empty-tracks moov (a moov
box containing only the mvhd) and remove both sidecar files. -/
theorem zero_records_finalize_with_empty_moov (s : RecState) (p : List Nat)
    (cfg : RecorderConfig) (lock : Bool)
    (hrec : s.recording = true) (hv : s.video_frames = [])
    (ha : s.audio_frames = [])
    (h40 : 40 ≤ p.length) (hsz : p.length - 32 ≤ 0xFFFFFFFF) :
    ((stop s).1 = true ∧ (stop s).2.idxExists = false ∧
     (stop s).2.lockExists = false ∧ (stop s).2.moovBytes = some emptyMoov) ∧
    recover ⟨some p, some ⟨MP4R_MAGIC, cfg, []⟩, lock⟩ =
      (true, ⟨some (patchMdatSize p ++ emptyMoov), none, false⟩) := by
  constructor
  · unfold stop
    simp [hrec, hv, ha, buildMoov_nil]
  · have hlt : ¬(p.length < 40) := by omega
    have hgt : ¬(p.length - 32 > 0xFFFFFFFF) := by omega
    have hmagic : ¬(MP4R_MAGIC ≠ MP4R_MAGIC) := by simp
    unfold recover
    simp only [List.filter_nil, if_neg hmagic, if_neg hlt, if_neg hgt,
      buildMoov_nil]

theorem zero_records_finalize_with_empty_moov_witness :
    (initRecState defaultConfig).recording = true ∧
    recover ⟨some p0, some ⟨MP4R_MAGIC, defaultConfig, []⟩, true⟩ =
      (true, ⟨some (patchMdatSize p0 ++ emptyMoov), none, false⟩) :=
  ⟨by decide, (zero_records_finalize_with_empty_moov (initRecState defaultConfig)
    p0 defaultConfig true rfl rfl rfl (by decide) (by decide)).2⟩
